/-
Verification development for the agri-ai frontend's disease-detection
pipeline and caching layer.  The definitions below are a shallow embedding
of the TypeScript sources:

* `frontend/src/data/diseaseTreatments.ts` — the treatment reference table
  and the label-resolution helper `getTreatmentInfo`;
* `frontend/src/services/cacheService.ts` — the time-boxed `CacheService`
  (`set`/`get`/`keys`/`generateLocationKey`) and the `TFLiteService`
  (`loadDiseaseModel`, `preprocessImage`, `detectDisease`);
* `frontend/src/api/client.ts` — `ApiClient.handleError`;
* `frontend/src/api/agriculture.ts` — `AgricultureAPI.detectDisease`.

JavaScript strings are modelled as `List Char`/`String`; JavaScript numbers
appearing in the cache-key computation are modelled as exact rationals
(`ℚ`), with `Math.round` as floor of `x + 1/2`; timestamps and durations
(milliseconds) are modelled as naturals.  Asynchronous fallible calls are
modelled with `Except`, and the HTTP collaborator is modelled by an
explicit outcome value that each operation consumes.
-/
import Mathlib

set_option autoImplicit false

/-! ## JavaScript string primitives

`String.prototype.trim`, `replace(/\s+/g, ' ')`, `split(' ')`,
`toLowerCase` (on the ASCII letters, which is all the reference table
uses), and the whitespace class `\s` of JavaScript regular expressions. -/

/-- The JavaScript regular-expression whitespace class `\s` (also the set
trimmed by `String.prototype.trim`). -/
def jsIsWs (c : Char) : Bool :=
  c = '\t' || c = '\n' || c = '\x0b' || c = '\x0c' || c = '\r' || c = ' ' ||
  c = '\xa0' || c = '\u1680' || ('\u2000' ≤ c && c ≤ '\u200a') ||
  c = '\u2028' || c = '\u2029' || c = '\u202f' || c = '\u205f' ||
  c = '\u3000' || c = '\ufeff'

/-- `String.prototype.trim`: drop leading and trailing whitespace. -/
def jsTrim (l : List Char) : List Char :=
  ((l.dropWhile jsIsWs).reverse.dropWhile jsIsWs).reverse

/-- Worker for `jsCollapseWs`; the flag records whether the previously
emitted character was the space standing for a whitespace run. -/
def jsCollapseWsAux : Bool → List Char → List Char
  | _, [] => []
  | prevWs, c :: rest =>
    if jsIsWs c then
      if prevWs then jsCollapseWsAux true rest
      else ' ' :: jsCollapseWsAux true rest
    else c :: jsCollapseWsAux false rest

/-- `s.replace(/\s+/g, ' ')`: every maximal whitespace run becomes one
space. -/
def jsCollapseWs (l : List Char) : List Char :=
  jsCollapseWsAux false l

/-- `s.split(' ')` for a single-space separator, with JavaScript's
semantics (`"".split(' ') = [""]`, separators at the ends produce empty
fields). -/
def jsSplitSpace : List Char → List (List Char)
  | [] => [[]]
  | c :: rest =>
    if c = ' ' then [] :: jsSplitSpace rest
    else
      match jsSplitSpace rest with
      | [] => [[c]]
      | g :: gs => (c :: g) :: gs

/-- `s.toLowerCase()` restricted to the basic-latin letters; this is
exactly `Char.toLower` applied characterwise. -/
def jsToLower (l : List Char) : List Char :=
  l.map Char.toLower

/-! ## The treatment reference table (`diseaseTreatments.ts`) -/

/-- One record of the treatment reference table. -/
structure TreatmentInfo where
  name : String
  description : String
  treatment : List String
  prevention : List String
  severity : String
  cause : String
  deriving DecidableEq, Repr

/-- JavaScript object property lookup `diseaseTreatments[key]` on the
reference table, modelled as first-match association lookup (the object
literal has pairwise-distinct keys, so first-match agrees with it). -/
def findTreatment : List (String × TreatmentInfo) → String → Option TreatmentInfo
  | [], _ => none
  | (k, v) :: rest, key => if key = k then some v else findTreatment rest key

/-- `parts[0] + '___' + parts.slice(1).join('_')` from `getTreatmentInfo`. -/
def reconstructKey : List (List Char) → List Char
  | [] => []
  | p :: rest => p ++ ('_' :: '_' :: '_' :: []) ++ List.intercalate ['_'] rest

def diseaseTreatments : List (String × TreatmentInfo) := [
  ("Apple___Apple_scab",
   ⟨"Apple Scab",
    "A fungal disease that causes dark, scab-like lesions on apple fruit and leaves.",
    ["Apply fungicide spray with captan or mancozeb at regular intervals", "Remove fallen leaves and infected plant debris", "Ensure proper air circulation by pruning", "Choose resistant apple varieties for future planting", "Apply dormant season spray with copper or lime sulfur"],
    ["Plant disease-resistant varieties", "Maintain proper spacing between trees", "Regular monitoring and early detection", "Good orchard sanitation"],
    "Moderate", "Fungal (Venturia inaequalis)"⟩),
  ("Apple___Black_rot",
   ⟨"Apple Black Rot",
    "A fungal disease causing dark, sunken lesions on apple fruit and cankers on branches.",
    ["Remove and destroy infected fruits and branches", "Apply fungicide containing captan or thiophanate-methyl", "Prune infected branches during dormant season", "Maintain good orchard sanitation", "Apply copper-based fungicides during dormant season"],
    ["Remove mummified fruits from trees and ground", "Prune for good air circulation", "Regular fungicide applications during growing season", "Choose less susceptible varieties"],
    "High", "Fungal (Botryosphaeria obtusa)"⟩),
  ("Apple___Cedar_apple_rust",
   ⟨"Cedar Apple Rust",
    "A fungal disease that requires both apple and cedar trees to complete its lifecycle.",
    ["Apply preventive fungicide sprays with myclobutanil or propiconazole", "Remove nearby cedar or juniper trees if possible", "Use systemic fungicides during early infection stages", "Rake and dispose of infected leaves", "Apply multiple fungicide applications during spring"],
    ["Plant resistant apple varieties", "Remove cedar/juniper trees within 1-2 miles if feasible", "Start preventive fungicide program early in spring", "Monitor for early symptoms"],
    "Moderate", "Fungal (Gymnosporangium juniperi-virginianae)"⟩),
  ("Apple___healthy",
   ⟨"Healthy Apple",
    "No disease detected. The apple plant appears healthy.",
    ["Continue regular maintenance practices", "Monitor for early signs of diseases", "Maintain proper nutrition and watering"],
    ["Regular inspection of plants", "Proper fertilization and watering", "Good orchard hygiene"],
    "None", "No disease present"⟩),
  ("Blueberry___healthy",
   ⟨"Healthy Blueberry",
    "No disease detected. The blueberry plant appears healthy.",
    ["Continue regular maintenance practices", "Monitor for early signs of diseases", "Maintain proper nutrition and watering"],
    ["Regular inspection of plants", "Proper fertilization and watering", "Maintain soil pH between 4.5-5.5"],
    "None", "No disease present"⟩),
  ("Cherry_(including_sour)___Powdery_mildew",
   ⟨"Cherry Powdery Mildew",
    "A fungal disease causing white, powdery growth on leaves and shoots.",
    ["Apply fungicide with sulfur, potassium bicarbonate, or myclobutanil", "Improve air circulation around plants", "Remove infected plant parts", "Apply neem oil or horticultural oils", "Use baking soda spray (1 tsp per quart water)"],
    ["Plant in areas with good air circulation", "Avoid overhead watering", "Choose resistant varieties", "Regular monitoring and early treatment"],
    "Moderate", "Fungal (Podosphaera clandestina)"⟩),
  ("Cherry_(including_sour)___healthy",
   ⟨"Healthy Cherry",
    "No disease detected. The cherry plant appears healthy.",
    ["Continue regular maintenance practices", "Monitor for early signs of diseases", "Maintain proper nutrition and watering"],
    ["Regular inspection of plants", "Proper fertilization and watering", "Good garden hygiene"],
    "None", "No disease present"⟩),
  ("Corn_(maize)___Cercospora_leaf_spot Gray_leaf_spot",
   ⟨"Corn Gray Leaf Spot",
    "A fungal disease causing rectangular gray-brown lesions on corn leaves.",
    ["Apply foliar fungicides with strobilurin or triazole", "Remove crop residue after harvest", "Practice crop rotation with non-host crops", "Use resistant corn varieties", "Apply fungicide at early stages of infection"],
    ["Plant resistant varieties", "Rotate crops (avoid continuous corn)", "Till crop residue into soil", "Monitor weather conditions (disease favored by warm, humid weather)"],
    "Moderate to High", "Fungal (Cercospora zeae-maydis)"⟩),
  ("Corn_(maize)___Common_rust_",
   ⟨"Corn Common Rust",
    "A fungal disease causing reddish-brown pustules on corn leaves.",
    ["Apply fungicides containing propiconazole or azoxystrobin", "Use resistant corn hybrids", "Remove volunteer corn plants", "Practice crop rotation", "Apply fungicide when disease first appears"],
    ["Plant resistant varieties", "Monitor for early symptoms", "Control volunteer corn", "Proper field sanitation"],
    "Moderate", "Fungal (Puccinia sorghi)"⟩),
  ("Corn_(maize)___Northern_Leaf_Blight",
   ⟨"Northern Leaf Blight",
    "A fungal disease causing elliptical gray-green lesions on corn leaves.",
    ["Apply fungicide with strobilurin or triazole active ingredients", "Use resistant corn hybrids", "Practice crop rotation", "Remove and bury crop residue", "Time fungicide applications with disease development"],
    ["Plant resistant varieties", "Rotate with non-host crops", "Manage crop residue properly", "Monitor environmental conditions"],
    "High", "Fungal (Exserohilum turcicum)"⟩),
  ("Corn_(maize)___healthy",
   ⟨"Healthy Corn",
    "No disease detected. The corn plant appears healthy.",
    ["Continue regular maintenance practices", "Monitor for early signs of diseases", "Maintain proper nutrition and watering"],
    ["Regular inspection of plants", "Proper fertilization", "Good field hygiene"],
    "None", "No disease present"⟩),
  ("Grape___Black_rot",
   ⟨"Grape Black Rot",
    "A fungal disease causing black, mummified grapes and leaf spots.",
    ["Apply fungicide with mancozeb, captan, or myclobutanil", "Remove mummified berries and infected leaves", "Prune for better air circulation", "Apply dormant season fungicide spray", "Start fungicide program early in season"],
    ["Remove infected plant debris", "Ensure good air circulation", "Regular fungicide applications", "Choose resistant varieties"],
    "High", "Fungal (Guignardia bidwellii)"⟩),
  ("Grape___Esca_(Black_Measles)",
   ⟨"Grape Esca (Black Measles)",
    "A complex fungal disease causing leaf discoloration and berry spotting.",
    ["Remove infected canes and spurs during dormant pruning", "Apply wound protectant after pruning", "Use trunk injection with fungicides", "Remove severely infected vines", "Apply foliar fungicides during growing season"],
    ["Proper pruning techniques to minimize wounds", "Apply wound protectants", "Avoid mechanical damage to vines", "Remove infected wood promptly"],
    "High", "Fungal complex (multiple species)"⟩),
  ("Grape___Leaf_blight_(Isariopsis_Leaf_Spot)",
   ⟨"Grape Leaf Blight",
    "A fungal disease causing brown spots and leaf yellowing.",
    ["Apply copper-based fungicides", "Remove infected leaves and debris", "Improve air circulation through pruning", "Use protective fungicides during wet periods", "Apply systemic fungicides for severe infections"],
    ["Prune for good air circulation", "Avoid overhead irrigation", "Remove fallen leaves", "Regular monitoring"],
    "Moderate", "Fungal (Isariopsis leafspot)"⟩),
  ("Grape___healthy",
   ⟨"Healthy Grape",
    "No disease detected. The grape plant appears healthy.",
    ["Continue regular maintenance practices", "Monitor for early signs of diseases", "Maintain proper nutrition and watering"],
    ["Regular inspection of plants", "Proper fertilization", "Good vineyard hygiene"],
    "None", "No disease present"⟩),
  ("Orange___Haunglongbing_(Citrus_greening)",
   ⟨"Citrus Greening (HLB)",
    "A bacterial disease transmitted by Asian citrus psyllid, causing yellowing and bitter fruit.",
    ["Remove and destroy infected trees immediately", "Control Asian citrus psyllid with insecticides", "Apply antibiotics (streptomycin) where permitted", "Improve tree nutrition with foliar feeds", "Use systemic insecticides for psyllid control"],
    ["Monitor for Asian citrus psyllid", "Use certified disease-free nursery stock", "Regular inspection of trees", "Control psyllid populations"],
    "Very High (Fatal)", "Bacterial (Candidatus Liberibacter asiaticus)"⟩),
  ("Peach___Bacterial_spot",
   ⟨"Peach Bacterial Spot",
    "A bacterial disease causing spots on leaves and fruit, leading to fruit cracking.",
    ["Apply copper-based bactericides", "Use streptomycin sprays where available", "Remove infected plant debris", "Prune for better air circulation", "Apply preventive sprays during bloom"],
    ["Choose resistant varieties", "Avoid overhead irrigation", "Good orchard sanitation", "Regular monitoring"],
    "Moderate to High", "Bacterial (Xanthomonas arboricola pv. pruni)"⟩),
  ("Peach___healthy",
   ⟨"Healthy Peach",
    "No disease detected. The peach plant appears healthy.",
    ["Continue regular maintenance practices", "Monitor for early signs of diseases", "Maintain proper nutrition and watering"],
    ["Regular inspection of plants", "Proper fertilization", "Good orchard hygiene"],
    "None", "No disease present"⟩),
  ("Pepper,_bell___Bacterial_spot",
   ⟨"Pepper Bacterial Spot",
    "A bacterial disease causing dark spots on leaves and fruit.",
    ["Apply copper-based bactericides", "Remove infected plants and debris", "Use certified disease-free seeds", "Improve air circulation", "Apply preventive bactericide sprays"],
    ["Use resistant varieties", "Avoid overhead watering", "Rotate crops", "Good field sanitation"],
    "Moderate", "Bacterial (Xanthomonas species)"⟩),
  ("Pepper,_bell___healthy",
   ⟨"Healthy Pepper",
    "No disease detected. The pepper plant appears healthy.",
    ["Continue regular maintenance practices", "Monitor for early signs of diseases", "Maintain proper nutrition and watering"],
    ["Regular inspection of plants", "Proper fertilization", "Good garden hygiene"],
    "None", "No disease present"⟩),
  ("Potato___Early_blight",
   ⟨"Potato Early Blight",
    "A fungal disease causing dark spots with concentric rings on leaves.",
    ["Apply fungicide with chlorothalonil or mancozeb", "Remove infected plant debris", "Improve air circulation", "Use drip irrigation instead of overhead watering", "Apply fungicide on 7-14 day schedule"],
    ["Plant certified disease-free seed potatoes", "Rotate crops (3-4 year rotation)", "Maintain proper plant spacing", "Regular monitoring"],
    "Moderate to High", "Fungal (Alternaria solani)"⟩),
  ("Potato___Late_blight",
   ⟨"Potato Late Blight",
    "A serious fungal disease causing dark, water-soaked lesions on leaves and tubers.",
    ["Apply fungicide with metalaxyl, mancozeb, or chlorothalonil", "Remove and destroy infected plants immediately", "Avoid overhead irrigation", "Harvest tubers in dry conditions", "Apply fungicide preventively in cool, moist conditions"],
    ["Use certified seed potatoes", "Monitor weather conditions (disease favored by cool, moist weather)", "Good field drainage", "Preventive fungicide applications"],
    "Very High", "Oomycete (Phytophthora infestans)"⟩),
  ("Potato___healthy",
   ⟨"Healthy Potato",
    "No disease detected. The potato plant appears healthy.",
    ["Continue regular maintenance practices", "Monitor for early signs of diseases", "Maintain proper nutrition and watering"],
    ["Regular inspection of plants", "Proper fertilization", "Good field hygiene"],
    "None", "No disease present"⟩),
  ("Raspberry___healthy",
   ⟨"Healthy Raspberry",
    "No disease detected. The raspberry plant appears healthy.",
    ["Continue regular maintenance practices", "Monitor for early signs of diseases", "Maintain proper nutrition and watering"],
    ["Regular inspection of plants", "Proper fertilization", "Good garden hygiene"],
    "None", "No disease present"⟩),
  ("Soybean___healthy",
   ⟨"Healthy Soybean",
    "No disease detected. The soybean plant appears healthy.",
    ["Continue regular maintenance practices", "Monitor for early signs of diseases", "Maintain proper nutrition and watering"],
    ["Regular inspection of plants", "Proper fertilization", "Good field hygiene"],
    "None", "No disease present"⟩),
  ("Squash___Powdery_mildew",
   ⟨"Squash Powdery Mildew",
    "A fungal disease causing white, powdery growth on leaves.",
    ["Apply fungicide with sulfur or potassium bicarbonate", "Use neem oil or horticultural oils", "Improve air circulation", "Apply baking soda spray (1 tsp per quart water)", "Remove heavily infected leaves"],
    ["Plant resistant varieties", "Ensure good air circulation", "Avoid overhead watering", "Regular monitoring"],
    "Moderate", "Fungal (Podosphaera xanthii)"⟩),
  ("Strawberry___Leaf_scorch",
   ⟨"Strawberry Leaf Scorch",
    "A fungal disease causing purple or brown spots that turn white with purple borders.",
    ["Apply fungicide with captan or myclobutanil", "Remove infected leaves and debris", "Improve air circulation", "Avoid overhead watering", "Apply fungicide at first sign of symptoms"],
    ["Plant resistant varieties", "Good air circulation", "Proper plant spacing", "Regular monitoring"],
    "Moderate", "Fungal (Diplocarpon earlianum)"⟩),
  ("Strawberry___healthy",
   ⟨"Healthy Strawberry",
    "No disease detected. The strawberry plant appears healthy.",
    ["Continue regular maintenance practices", "Monitor for early signs of diseases", "Maintain proper nutrition and watering"],
    ["Regular inspection of plants", "Proper fertilization", "Good garden hygiene"],
    "None", "No disease present"⟩),
  ("Tomato___Bacterial_spot",
   ⟨"Tomato Bacterial Spot",
    "A bacterial disease causing dark spots on leaves and fruit.",
    ["Apply copper-based bactericides", "Remove infected plants and debris", "Use certified disease-free seeds", "Improve air circulation", "Apply streptomycin where available"],
    ["Use resistant varieties", "Avoid overhead watering", "Rotate crops", "Good field sanitation"],
    "Moderate", "Bacterial (Xanthomonas species)"⟩),
  ("Tomato___Early_blight",
   ⟨"Tomato Early Blight",
    "A fungal disease causing dark spots with concentric rings on leaves and fruit.",
    ["Apply fungicide with chlorothalonil or mancozeb", "Remove infected plant debris", "Improve air circulation", "Use drip irrigation", "Apply fungicide preventively"],
    ["Plant resistant varieties", "Proper plant spacing", "Crop rotation", "Regular monitoring"],
    "Moderate to High", "Fungal (Alternaria solani)"⟩),
  ("Tomato___Late_blight",
   ⟨"Tomato Late Blight",
    "A serious fungal disease causing dark, water-soaked lesions on leaves and fruit.",
    ["Apply fungicide with metalaxyl or copper compounds", "Remove infected plants immediately", "Improve air circulation", "Avoid overhead watering", "Apply fungicide preventively in cool, moist conditions"],
    ["Use certified disease-free transplants", "Monitor weather conditions", "Good air circulation", "Preventive fungicide applications"],
    "Very High", "Oomycete (Phytophthora infestans)"⟩),
  ("Tomato___Leaf_Mold",
   ⟨"Tomato Leaf Mold",
    "A fungal disease causing yellow spots on upper leaf surfaces and fuzzy growth underneath.",
    ["Improve ventilation and reduce humidity", "Apply fungicide with chlorothalonil or copper", "Remove infected leaves", "Avoid overhead watering", "Use resistant varieties"],
    ["Ensure good air circulation", "Control humidity in greenhouses", "Plant resistant varieties", "Proper plant spacing"],
    "Moderate", "Fungal (Passalora fulva)"⟩),
  ("Tomato___Septoria_leaf_spot",
   ⟨"Tomato Septoria Leaf Spot",
    "A fungal disease causing small, circular spots with dark borders on leaves.",
    ["Apply fungicide with chlorothalonil or mancozeb", "Remove infected lower leaves", "Improve air circulation", "Use drip irrigation", "Apply mulch to prevent soil splashing"],
    ["Rotate crops", "Remove plant debris", "Proper plant spacing", "Regular monitoring"],
    "Moderate", "Fungal (Septoria lycopersici)"⟩),
  ("Tomato___Spider_mites Two-spotted_spider_mite",
   ⟨"Two-spotted Spider Mite",
    "A pest causing stippling, yellowing, and webbing on tomato leaves.",
    ["Apply miticide or insecticidal soap", "Increase humidity around plants", "Use predatory mites as biological control", "Spray with water to dislodge mites", "Apply neem oil or horticultural oils"],
    ["Regular monitoring", "Maintain adequate humidity", "Avoid over-fertilization with nitrogen", "Use biological controls"],
    "Moderate", "Pest (Tetranychus urticae)"⟩),
  ("Tomato___Target_Spot",
   ⟨"Tomato Target Spot",
    "A fungal disease causing concentric ring patterns on leaves and fruit.",
    ["Apply fungicide with chlorothalonil or azoxystrobin", "Remove infected plant debris", "Improve air circulation", "Use drip irrigation", "Rotate crops"],
    ["Plant resistant varieties", "Good air circulation", "Proper sanitation", "Regular monitoring"],
    "Moderate", "Fungal (Corynespora cassiicola)"⟩),
  ("Tomato___Tomato_Yellow_Leaf_Curl_Virus",
   ⟨"Tomato Yellow Leaf Curl Virus",
    "A viral disease causing yellowing, curling leaves and stunted growth.",
    ["Remove infected plants immediately", "Control whitefly vectors with insecticides", "Use reflective mulches", "Apply systemic insecticides", "Use virus-free transplants"],
    ["Use resistant varieties", "Control whitefly populations", "Use physical barriers (row covers)", "Regular monitoring"],
    "High", "Viral (transmitted by whiteflies)"⟩),
  ("Tomato___Tomato_mosaic_virus",
   ⟨"Tomato Mosaic Virus",
    "A viral disease causing mottled yellowing and distorted leaves.",
    ["Remove infected plants immediately", "Disinfect tools and hands", "Control aphid vectors", "Use virus-free seeds and transplants", "No chemical cure available"],
    ["Use resistant varieties", "Control aphid vectors", "Good sanitation practices", "Avoid handling wet plants"],
    "High", "Viral (Tomato mosaic virus)"⟩),
  ("Tomato___healthy",
   ⟨"Healthy Tomato",
    "No disease detected. The tomato plant appears healthy.",
    ["Continue regular maintenance practices", "Monitor for early signs of diseases", "Maintain proper nutrition and watering"],
    ["Regular inspection of plants", "Proper fertilization", "Good garden hygiene"],
    "None", "No disease present"⟩)
]

/-- The `normalizedSpaces` intermediate of `getTreatmentInfo`:
`diseaseKey.trim().replace(/\s+/g, ' ')`. -/
def normalizedSpacesOf (diseaseKey : String) : List Char :=
  jsCollapseWs (jsTrim diseaseKey.data)

/-- The final fallback of `getTreatmentInfo`: if the cleaned key
lowercases to `"apple apple scab"`, return the `"Apple___Apple_scab"`
record, else `null`. -/
def appleScabFallback (normalizedSpaces : List Char) : Option TreatmentInfo :=
  if String.mk (jsToLower normalizedSpaces) = "apple apple scab" then
    findTreatment diseaseTreatments "Apple___Apple_scab"
  else none

/-- `getTreatmentInfo` from `diseaseTreatments.ts`: exact lookup, then
(for keys of at least three space-separated tokens) reconstruction as
`first + "___" + rest.join("_")`, then the hard-coded
`"apple apple scab"` fallback, else `null`. -/
def getTreatmentInfo (diseaseKey : String) : Option TreatmentInfo :=
  match findTreatment diseaseTreatments diseaseKey with
  | some t => some t
  | none =>
    let normalizedSpaces := normalizedSpacesOf diseaseKey
    let parts := jsSplitSpace normalizedSpaces
    if 3 ≤ parts.length then
      match findTreatment diseaseTreatments (String.mk (reconstructKey parts)) with
      | some t => some t
      | none => appleScabFallback normalizedSpaces
    else appleScabFallback normalizedSpaces

/-- The normalisation step as the specification words it (collapse
whitespace runs, split on single spaces, rebuild as
`firstToken + "___" + remainingTokens.join("_")`); written from the spec
text, for comparison with `getTreatmentInfo` which guards this step by a
three-token minimum. -/
def specNormalizeKey (rawKey : String) : String :=
  let n := jsCollapseWs (jsTrim rawKey.data)
  match jsSplitSpace n with
  | p :: rest => if rest = [] then String.mk n else String.mk (reconstructKey (p :: rest))
  | [] => String.mk n

/-! ## `CacheService` (`cacheService.ts`)

The localforage store is modelled as an association list from keys to
cache items; `setItem` overwrites any previous binding, `removeItem`
deletes the binding.  `Date.now()` is passed in explicitly as the current
time in milliseconds. -/

/-- A stored cache entry (`CacheItem<T>` in the source). -/
structure CacheItem (α : Type) where
  data : α
  timestamp : Nat
  expires : Nat
  deriving DecidableEq, Repr

/-- The backing keyed store. -/
def CacheStore (α : Type) : Type := List (String × CacheItem α)

/-- `store.setItem(key, item)`: bind `key` to `item`, replacing any
previous binding. -/
def storeSetItem {α : Type} (key : String) (item : CacheItem α)
    (store : CacheStore α) : CacheStore α :=
  (key, item) :: store.filter (fun p => p.1 ≠ key)

/-- `store.getItem(key)`. -/
def storeGetItem {α : Type} (key : String) (store : CacheStore α) :
    Option (CacheItem α) :=
  match store with
  | [] => none
  | (k, v) :: rest => if key = k then some v else storeGetItem key rest

/-- `store.removeItem(key)`. -/
def storeRemoveItem {α : Type} (key : String) (store : CacheStore α) :
    CacheStore α :=
  store.filter (fun p => p.1 ≠ key)

/-- `CacheService.set(key, data, expiresInMs)` at current time `now`
(default ttl `5 * 60 * 1000` as in the source). -/
def CacheService.set {α : Type} (now : Nat) (key : String) (data : α)
    (expiresInMs : Nat := 5 * 60 * 1000) (store : CacheStore α) :
    CacheStore α :=
  storeSetItem key
    { data := data, timestamp := now, expires := now + expiresInMs } store

/-- `CacheService.get(key)` at current time `now`: returns the cached
value (or `null`) together with the store after the call (an expired
entry is removed — lazy eviction). -/
def CacheService.get {α : Type} (now : Nat) (key : String)
    (store : CacheStore α) : Option α × CacheStore α :=
  match storeGetItem key store with
  | none => (none, store)
  | some item =>
    if item.expires < now then (none, storeRemoveItem key store)
    else (some item.data, store)

/-- `CacheService.keys()`. -/
def CacheService.keys {α : Type} (store : CacheStore α) : List String :=
  store.map Prod.fst

/-! ## `CacheService.generateLocationKey`

`Math.round(x * 100) / 100` followed by template-string interpolation.
JavaScript numbers are modelled as exact rationals, `Math.round` as
`⌊x + 1/2⌋` (half-up, as in JavaScript), and the decimal rendering of the
resulting hundredth-valued number is spelled out in `renderCenti`
(JavaScript prints `19.07` as `"19.07"`, `19.1` as `"19.1"`, `19` as
`"19"`).  The optional `extraParams` object is modelled by its serialized
`JSON.stringify` form. -/

/-- JavaScript `Math.round`: half-up rounding. -/
def jsRound (q : ℚ) : ℤ :=
  (q + 1 / 2).floor

/-- Decimal rendering of `n / 100` exactly as JavaScript stringifies that
number (`n` is the value in hundredths). -/
def renderCenti (n : ℤ) : String :=
  let sign := if n < 0 then "-" else ""
  let m := n.natAbs
  let ip := m / 100
  let fr := m % 100
  if fr = 0 then sign ++ toString ip
  else if fr % 10 = 0 then sign ++ toString ip ++ "." ++ toString (fr / 10)
  else if fr < 10 then sign ++ toString ip ++ ".0" ++ toString fr
  else sign ++ toString ip ++ "." ++ toString fr

/-- `CacheService.generateLocationKey(prefix, lat, lon, extraParams)`.
The first argument (called `prefix` in the source) is renamed `tag`
here. -/
def generateLocationKey (tag : String) (lat lon : ℚ)
    (extraParams : Option String) : String :=
  let roundedLat := jsRound (lat * 100)
  let roundedLon := jsRound (lon * 100)
  let extra := match extraParams with
    | some s => "-" ++ s
    | none => ""
  tag ++ "-" ++ renderCenti roundedLat ++ "-" ++ renderCenti roundedLon ++ extra

/-! ## `TFLiteService.preprocessImage`

The canvas draw (`drawImage` to a 224×224 canvas followed by
`getImageData`) yields a 224×224 raster of byte-valued channels; the
theorem quantifies over that raster.  The tensorflow.js pipeline
`fromPixels → resizeNearestNeighbor([224,224]) → toFloat → div(255) →
expandDims(0)` is modelled on a shape-carrying tensor of rationals. -/

/-- A tensor: a shape together with the value at each multi-index. -/
structure Tensor where
  shape : List Nat
  val : List Nat → ℚ

/-- `tf.browser.fromPixels(imageData)` for a `height × width` raster with
3 colour channels (alpha is dropped). -/
def fromPixels (height width : Nat) (imageData : Nat → Nat → Nat → Nat) :
    Tensor where
  shape := [height, width, 3]
  val idx :=
    match idx with
    | [i, j, c] => (imageData i j c : ℚ)
    | _ => 0

/-- `tensor.resizeNearestNeighbor([h', w'])` on a rank-3 tensor
(tensorflow.js default coordinate transform: source index
`⌊dst * src / dstSize⌋`). -/
def Tensor.resizeNearestNeighbor (t : Tensor) (h' w' : Nat) : Tensor :=
  match t.shape with
  | [h, w, c] =>
    { shape := [h', w', c]
      val := fun idx =>
        match idx with
        | [i, j, ch] => t.val [i * h / h', j * w / w', ch]
        | _ => 0 }
  | _ => t

/-- `tensor.toFloat()`: values are already exact rationals here. -/
def Tensor.toFloat (t : Tensor) : Tensor := t

/-- `tensor.div(d)`. -/
def Tensor.divScalar (t : Tensor) (d : ℚ) : Tensor where
  shape := t.shape
  val idx := t.val idx / d

/-- `tensor.expandDims(0)`. -/
def Tensor.expandDims0 (t : Tensor) : Tensor where
  shape := 1 :: t.shape
  val idx :=
    match idx with
    | _ :: rest => t.val rest
    | [] => 0

/-- `TFLiteService.preprocessImage`, applied to the 224×224 byte raster
produced by the canvas stage. -/
def preprocessImage (imageData : Nat → Nat → Nat → Nat) : Tensor :=
  ((((fromPixels 224 224 imageData).resizeNearestNeighbor 224 224).toFloat).divScalar
    255).expandDims0

/-! ## The remote pipeline (`client.ts`, `agriculture.ts`,
`TFLiteService.detectDisease`, `DiseaseDetectionPage`)

The axios transport is modelled by an explicit outcome: either a parsed
success body or one of the three axios failure shapes that
`ApiClient.handleError` distinguishes (`error.response`, `error.request`,
setup error).  A `detail`/`message` body field is an `Option String`;
JavaScript's `||` chain treats a missing field and an empty string alike
as falsy. -/

/-- `DiseaseDetectionResult` from `types.ts`. -/
structure DiseaseDetectionResponse where
  predicted_disease : String
  confidence : String
  deriving DecidableEq, Repr

/-- `ApiError` from `types.ts`. -/
structure ApiError where
  message : String
  status : Option Nat
  deriving DecidableEq, Repr

/-- The three axios failure shapes that `handleError` distinguishes. -/
inductive AxiosFailure where
  | response (status : Nat) (detail : Option String) (message : Option String)
  | request
  | setup (message : Option String)
  deriving DecidableEq, Repr

/-- JavaScript truthiness of an optional string field (`undefined` and
`""` are falsy). -/
def jsTruthyStr : Option String → Bool
  | none => false
  | some s => s ≠ ""

/-- `a || b` on optional string fields. -/
def jsOrStr (a : Option String) (b : String) : String :=
  match a with
  | some s => if s ≠ "" then s else b
  | none => b

/-- `ApiClient.handleError` from `client.ts`. -/
def handleError : AxiosFailure → ApiError
  | .response status detail message =>
    { message := jsOrStr detail (jsOrStr message
        ("HTTP " ++ toString status ++ " Error"))
      status := some status }
  | .request =>
    { message := "No response from server. Please check your internet connection."
      status := none }
  | .setup message =>
    { message := jsOrStr message "An unexpected error occurred"
      status := none }

/-- The outcome of one POST to the remote disease-detection endpoint. -/
inductive HttpOutcome where
  | ok (resp : DiseaseDetectionResponse)
  | fail (e : AxiosFailure)
  deriving DecidableEq, Repr

/-- `apiClient.postFormData`: a 2xx response resolves with the parsed
body; any axios failure is mapped through the response interceptor to a
rejection with `handleError`'s `ApiError`. -/
def postFormData (o : HttpOutcome) : Except ApiError DiseaseDetectionResponse :=
  match o with
  | .ok resp => .ok resp
  | .fail e => .error (handleError e)

/-- `AgricultureAPI.detectDisease` (`agriculture.ts`): wraps the image in
a form upload and posts it; the result or rejection of the POST is passed
through unchanged. -/
def AgricultureAPI.detectDisease (o : HttpOutcome) :
    Except ApiError DiseaseDetectionResponse :=
  postFormData o

/-- The placeholder result `TFLiteService.detectDisease` substitutes when
the backend call fails. -/
def placeholderResponse : DiseaseDetectionResponse :=
  { predicted_disease := "Unable to detect - Please check connection"
    confidence := "0.00" }

/-- The `try ... catch` statement on a modelled promise. -/
def jsTryCatch {ε α : Type} (x : Except ε α) (handler : ε → Except ε α) :
    Except ε α :=
  match x with
  | .ok a => .ok a
  | .error e => handler e

/-- Trace of one `TFLiteService.detectDisease` call: the delivered result
plus how many backend (remote) calls and how many local-model inference
calls were made. -/
structure DetectTrace where
  result : DiseaseDetectionResponse
  remoteCalls : Nat
  localInferenceCalls : Nat
  deriving DecidableEq, Repr

/-- `TFLiteService.detectDisease` (`cacheService.ts`): it calls the
backend API first (one remote call, no local inference), and its `catch`
turns any backend failure into the placeholder result.  The service's
`modelLoaded` flag is passed in to record that the method never consults
it. -/
def TFLiteService.detectDisease (modelLoaded : Bool) (o : HttpOutcome) :
    Except ApiError DetectTrace :=
  jsTryCatch
    ((AgricultureAPI.detectDisease o).map
      (fun r => { result := r, remoteCalls := 1, localInferenceCalls := 0 }))
    (fun _ => .ok
      { result := placeholderResponse, remoteCalls := 1, localInferenceCalls := 0 })

/-- The page state the `detectDisease` handler of
`DiseaseDetectionPage.tsx` leaves behind. -/
structure PageState where
  result : Option DiseaseDetectionResponse
  error : Option String
  isLoading : Bool
  deriving DecidableEq, Repr

/-- The `detectDisease` click handler of `DiseaseDetectionPage.tsx`: on a
resolved service call it stores the result; a rejection is caught and
stored as an error message (the service's `ApiError` is not an `Error`
instance, so the generic text is used); `finally` clears the loading
flag. -/
def DiseaseDetectionPage.detectDisease (modelLoaded : Bool) (o : HttpOutcome) :
    PageState :=
  match TFLiteService.detectDisease modelLoaded o with
  | .ok t => { result := some t.result, error := none, isLoading := false }
  | .error _ => { result := none, error := some "Detection failed", isLoading := false }

/-! ## `TFLiteService.loadDiseaseModel`

The load either succeeds (the fetch of `class_indices.json` resolves and
parses) or fails; `fetchOk` records which.  The trace records the new
`modelLoaded` flag, the call's outcome, and whether a fetch was issued. -/

/-- Trace of one `loadDiseaseModel` call. -/
structure LoadTrace where
  modelLoaded : Bool
  outcome : Except String Unit
  fetched : Bool
  deriving Repr

/-- `TFLiteService.loadDiseaseModel` (`cacheService.ts`): returns at once
when already loaded; otherwise fetches, sets the flag on success, and on
failure throws leaving the flag unchanged. -/
def TFLiteService.loadDiseaseModel (fetchOk : Bool) (modelLoaded : Bool) :
    LoadTrace :=
  if modelLoaded then
    { modelLoaded := modelLoaded, outcome := .ok (), fetched := false }
  else if fetchOk then
    { modelLoaded := true, outcome := .ok (), fetched := true }
  else
    { modelLoaded := modelLoaded
      outcome := .error "Failed to load disease detection model"
      fetched := true }

/-! ## Character-level lemmas -/

theorem char_eq_iff_toNat {a b : Char} : a = b ↔ a.toNat = b.toNat :=
  ⟨fun h => h ▸ rfl, fun h => Char.ext (UInt32.toNat.inj h)⟩

theorem char_le_iff_toNat {a b : Char} : a ≤ b ↔ a.toNat ≤ b.toNat := by
  rw [Char.le_def, UInt32.le_def, BitVec.le_def]; rfl

theorem jsIsWs_iff (c : Char) : jsIsWs c = true ↔
    (c.toNat = 9 ∨ c.toNat = 10 ∨ c.toNat = 11 ∨ c.toNat = 12 ∨ c.toNat = 13 ∨
     c.toNat = 32 ∨ c.toNat = 160 ∨ c.toNat = 0x1680 ∨
     (0x2000 ≤ c.toNat ∧ c.toNat ≤ 0x200a) ∨ c.toNat = 0x2028 ∨
     c.toNat = 0x2029 ∨ c.toNat = 0x202f ∨ c.toNat = 0x205f ∨
     c.toNat = 0x3000 ∨ c.toNat = 0xfeff) := by
  simp only [jsIsWs, Bool.or_eq_true, Bool.and_eq_true, decide_eq_true_eq,
    char_eq_iff_toNat, char_le_iff_toNat,
    show Char.toNat '\t' = 9 from rfl, show Char.toNat '\n' = 10 from rfl,
    show Char.toNat '\x0b' = 11 from rfl, show Char.toNat '\x0c' = 12 from rfl,
    show Char.toNat '\r' = 13 from rfl, show Char.toNat ' ' = 32 from rfl,
    show Char.toNat '\xa0' = 160 from rfl, show Char.toNat ' ' = 5760 from rfl,
    show Char.toNat ' ' = 8192 from rfl, show Char.toNat ' ' = 8202 from rfl,
    show Char.toNat ' ' = 8232 from rfl, show Char.toNat ' ' = 8233 from rfl,
    show Char.toNat ' ' = 8239 from rfl, show Char.toNat ' ' = 8287 from rfl,
    show Char.toNat '　' = 12288 from rfl, show Char.toNat '﻿' = 65279 from rfl]
  omega

theorem toNat_toLower_of_upper {c : Char} (h1 : 65 ≤ c.toNat) (h2 : c.toNat ≤ 90) :
    (Char.toLower c).toNat = c.toNat + 32 := by
  have hv : (c.toNat + 32).isValidChar := Or.inl (by omega)
  simp only [Char.toLower, ge_iff_le]
  rw [if_pos ⟨h1, h2⟩]
  show (Char.ofNat (c.toNat + 32)).toNat = c.toNat + 32
  unfold Char.ofNat
  rw [dif_pos hv]
  rfl

theorem toLower_eq_self {c : Char} (h : ¬(65 ≤ c.toNat ∧ c.toNat ≤ 90)) :
    Char.toLower c = c := by
  simp only [Char.toLower, ge_iff_le]
  rw [if_neg h]

theorem jsIsWs_toLower (c : Char) : jsIsWs (Char.toLower c) = jsIsWs c := by
  by_cases h : 65 ≤ c.toNat ∧ c.toNat ≤ 90
  · have h2 := toNat_toLower_of_upper h.1 h.2
    have hl : jsIsWs (Char.toLower c) = false := by
      rw [← Bool.not_eq_true, jsIsWs_iff]; omega
    have hr : jsIsWs c = false := by
      rw [← Bool.not_eq_true, jsIsWs_iff]; omega
    rw [hl, hr]
  · rw [toLower_eq_self h]

theorem toLower_eq_space_iff (c : Char) : Char.toLower c = ' ' ↔ c = ' ' := by
  by_cases h : 65 ≤ c.toNat ∧ c.toNat ≤ 90
  · have h2 := toNat_toLower_of_upper h.1 h.2
    constructor
    · intro hc
      rw [char_eq_iff_toNat] at hc
      simp only [show Char.toNat ' ' = 32 from rfl] at hc
      omega
    · intro hc
      subst hc
      simp at h
  · rw [toLower_eq_self h]

/-! ## List-level lemmas about the string primitives -/

theorem map_toLower_dropWhile (l : List Char) :
    (l.dropWhile jsIsWs).map Char.toLower = (l.map Char.toLower).dropWhile jsIsWs := by
  have hws : (jsIsWs ∘ Char.toLower) = jsIsWs := funext jsIsWs_toLower
  rw [List.dropWhile_map, hws]

theorem jsToLower_jsTrim (l : List Char) :
    jsToLower (jsTrim l) = jsTrim (jsToLower l) := by
  simp only [jsTrim, jsToLower]
  rw [List.map_reverse, map_toLower_dropWhile, List.map_reverse,
    map_toLower_dropWhile]

theorem jsCollapseWsAux_map_toLower (b : Bool) (l : List Char) :
    (jsCollapseWsAux b l).map Char.toLower = jsCollapseWsAux b (l.map Char.toLower) := by
  induction l generalizing b with
  | nil => rfl
  | cons c rest ih =>
    simp only [jsCollapseWsAux, List.map_cons, jsIsWs_toLower]
    by_cases h : jsIsWs c
    · cases b <;> simp [h, ih, Char.toLower]
    · simp [h, ih]

theorem jsToLower_jsCollapseWs (l : List Char) :
    jsToLower (jsCollapseWs l) = jsCollapseWs (jsToLower l) :=
  jsCollapseWsAux_map_toLower false l

theorem jsSplitSpace_map_toLower (l : List Char) :
    jsSplitSpace (l.map Char.toLower) = (jsSplitSpace l).map (List.map Char.toLower) := by
  induction l with
  | nil => rfl
  | cons c rest ih =>
    by_cases h : c = ' '
    · subst h
      simp [jsSplitSpace, ih]
    · have h' : Char.toLower c ≠ ' ' := fun hc => h ((toLower_eq_space_iff c).mp hc)
      simp only [List.map_cons, jsSplitSpace, if_neg h, if_neg h', ih]
      cases hs : jsSplitSpace rest with
      | nil => simp
      | cons g gs => simp

/-- `jsSplitSpace` never returns the empty list of fields. -/
theorem jsSplitSpace_ne_nil (l : List Char) : jsSplitSpace l ≠ [] := by
  cases l with
  | nil => simp [jsSplitSpace]
  | cons c rest =>
    by_cases h : c = ' '
    · simp [jsSplitSpace, h]
    · simp only [jsSplitSpace, if_neg h]
      cases jsSplitSpace rest <;> simp

/-- Splitting a string without spaces gives one field, the string itself. -/
theorem jsSplitSpace_of_not_mem (l : List Char) (h : ' ' ∉ l) :
    jsSplitSpace l = [l] := by
  induction l with
  | nil => rfl
  | cons c rest ih =>
    have hc : c ≠ ' ' := fun hc => h (hc ▸ List.mem_cons_self c rest)
    have hrest : ' ' ∉ rest := fun hr => h (List.mem_cons_of_mem c hr)
    simp only [jsSplitSpace, if_neg hc, ih hrest]

/-- Conversely, a one-field split means there was no space. -/
theorem eq_of_jsSplitSpace_singleton {l p : List Char}
    (h : jsSplitSpace l = [p]) : p = l ∧ ' ' ∉ l := by
  induction l generalizing p with
  | nil =>
    simp only [jsSplitSpace, List.cons.injEq] at h
    simp [← h.1]
  | cons c rest ih =>
    by_cases hc : c = ' '
    · subst hc
      simp only [jsSplitSpace, if_pos rfl] at h
      exact absurd (List.cons.inj h).2 (jsSplitSpace_ne_nil rest)
    · simp only [jsSplitSpace, if_neg hc] at h
      cases hs : jsSplitSpace rest with
      | nil => exact absurd hs (jsSplitSpace_ne_nil rest)
      | cons g gs =>
        rw [hs] at h
        obtain ⟨h1, h2⟩ := List.cons.inj h
        subst h2
        obtain ⟨hg, hmem⟩ := ih hs
        subst hg
        constructor
        · exact h1.symm
        · intro hm
          rcases List.mem_cons.mp hm with h' | h'
          · exact hc h'.symm
          · exact hmem h'

/-- A field of `jsSplitSpace` contains no space. -/
theorem not_space_mem_of_mem_jsSplitSpace {l p : List Char}
    (hp : p ∈ jsSplitSpace l) : ' ' ∉ p := by
  induction l generalizing p with
  | nil =>
    simp only [jsSplitSpace, List.mem_singleton] at hp
    subst hp; simp
  | cons c rest ih =>
    by_cases hc : c = ' '
    · subst hc
      simp only [jsSplitSpace, if_true, List.mem_cons] at hp
      rcases hp with hp | hp
      · subst hp; simp
      · exact ih hp
    · simp only [jsSplitSpace, if_neg hc] at hp
      cases hs : jsSplitSpace rest with
      | nil => exact absurd hs (jsSplitSpace_ne_nil rest)
      | cons g gs =>
        rw [hs] at hp
        rcases List.mem_cons.mp hp with hp | hp
        · subst hp
          intro hm
          rcases List.mem_cons.mp hm with h' | h'
          · exact hc h'.symm
          · exact ih (hs ▸ List.mem_cons_self g gs) h'
        · exact ih (hs ▸ List.mem_cons_of_mem g hp)

/-- Characters of a field of `jsSplitSpace` come from the split string. -/
theorem mem_of_mem_jsSplitSpace {l p : List Char} {c : Char}
    (hp : p ∈ jsSplitSpace l) (hc : c ∈ p) : c ∈ l := by
  induction l generalizing p with
  | nil =>
    simp only [jsSplitSpace, List.mem_singleton] at hp
    subst hp; simp at hc
  | cons d rest ih =>
    by_cases hd : d = ' '
    · subst hd
      simp only [jsSplitSpace, if_true, List.mem_cons] at hp
      rcases hp with hp | hp
      · subst hp; simp at hc
      · exact List.mem_cons_of_mem _ (ih hp hc)
    · simp only [jsSplitSpace, if_neg hd] at hp
      cases hs : jsSplitSpace rest with
      | nil => exact absurd hs (jsSplitSpace_ne_nil rest)
      | cons g gs =>
        rw [hs] at hp
        rcases List.mem_cons.mp hp with hp | hp
        · subst hp
          rcases List.mem_cons.mp hc with h' | h'
          · exact h' ▸ List.mem_cons_self d rest
          · exact List.mem_cons_of_mem _ (ih (hs ▸ List.mem_cons_self g gs) h')
        · exact List.mem_cons_of_mem _ (ih (hs ▸ List.mem_cons_of_mem g hp) hc)

/-- The only whitespace character `jsCollapseWsAux` can emit is a space. -/
theorem eq_space_of_mem_jsCollapseWsAux {c : Char} :
    ∀ {b : Bool} {l : List Char}, c ∈ jsCollapseWsAux b l → jsIsWs c = true → c = ' '
  | b, d :: rest, hc, hws => by
    revert hc
    simp only [jsCollapseWsAux]
    by_cases h : jsIsWs d
    · cases b with
      | true =>
        simp only [if_pos h]
        exact fun hc => eq_space_of_mem_jsCollapseWsAux hc hws
      | false =>
        simp only [if_pos h, if_neg (Bool.false_ne_true), List.mem_cons]
        rintro (rfl | hc)
        · rfl
        · exact eq_space_of_mem_jsCollapseWsAux hc hws
    · simp only [if_neg h, List.mem_cons]
      rintro (rfl | hc)
      · exact absurd hws (by simp [h])
      · exact eq_space_of_mem_jsCollapseWsAux hc hws

theorem dropWhile_eq_self_of_forall {p : Char → Bool} {l : List Char}
    (h : ∀ c ∈ l, p c = false) : l.dropWhile p = l := by
  cases l with
  | nil => rfl
  | cons c rest =>
    rw [List.dropWhile_cons, if_neg]
    rw [h c (List.mem_cons_self c rest)]
    simp

/-- Trimming is the identity on whitespace-free strings. -/
theorem jsTrim_eq_self {l : List Char} (h : ∀ c ∈ l, jsIsWs c = false) :
    jsTrim l = l := by
  unfold jsTrim
  rw [dropWhile_eq_self_of_forall h,
    dropWhile_eq_self_of_forall (fun c hc => h c (List.mem_reverse.mp hc)),
    List.reverse_reverse]

/-- Collapsing is the identity on whitespace-free strings. -/
theorem jsCollapseWsAux_eq_self {l : List Char} (b : Bool)
    (h : ∀ c ∈ l, jsIsWs c = false) : jsCollapseWsAux b l = l := by
  induction l generalizing b with
  | nil => rfl
  | cons c rest ih =>
    have hc := h c (List.mem_cons_self c rest)
    simp only [jsCollapseWsAux, hc, Bool.false_eq_true, if_false]
    rw [ih false (fun d hd => h d (List.mem_cons_of_mem c hd))]

theorem intercalate_cons_cons (sep : List Char) (a b : List Char)
    (t : List (List Char)) :
    List.intercalate sep (a :: b :: t) = a ++ sep ++ List.intercalate sep (b :: t) := by
  simp [List.intercalate, List.intersperse]

theorem intercalate_singleton (sep : List Char) (a : List Char) :
    List.intercalate sep [a] = a := by
  simp [List.intercalate, List.intersperse]

/-- Membership in an intercalation: a separator character or a character
of one of the parts. -/
theorem mem_intercalate {c x : Char} :
    ∀ {ls : List (List Char)}, c ∈ List.intercalate [x] ls →
      c = x ∨ ∃ p ∈ ls, c ∈ p
  | [], h => by simp [List.intercalate] at h
  | [a], h => by
    rw [intercalate_singleton] at h
    exact Or.inr ⟨a, List.mem_singleton_self a, h⟩
  | a :: b :: t, h => by
    rw [intercalate_cons_cons] at h
    rcases List.mem_append.mp h with h1 | h1
    · rcases List.mem_append.mp h1 with h2 | h2
      · exact Or.inr ⟨a, List.mem_cons_self a _, h2⟩
      · exact Or.inl (List.mem_singleton.mp h2)
    · rcases mem_intercalate h1 with h2 | ⟨p, hp, hcp⟩
      · exact Or.inl h2
      · exact Or.inr ⟨p, List.mem_cons_of_mem a hp, hcp⟩

/-- `map Char.toLower` commutes with intercalation by `'_'`. -/
theorem map_toLower_intercalate :
    ∀ (ls : List (List Char)),
      (List.intercalate ['_'] ls).map Char.toLower =
        List.intercalate ['_'] (ls.map (List.map Char.toLower))
  | [] => by simp [List.intercalate]
  | [a] => by simp [intercalate_singleton]
  | a :: b :: t => by
    rw [intercalate_cons_cons]
    simp only [List.map_cons]
    rw [intercalate_cons_cons]
    simp only [List.map_append, map_toLower_intercalate (b :: t), List.map_cons]
    simp

/-- `map Char.toLower` commutes with key reconstruction. -/
theorem map_toLower_reconstructKey (parts : List (List Char)) :
    (reconstructKey parts).map Char.toLower =
      reconstructKey (parts.map (List.map Char.toLower)) := by
  cases parts with
  | nil => rfl
  | cons p rest =>
    simp only [reconstructKey, List.map_append, List.map_cons]
    rw [map_toLower_intercalate]
    rfl

/-- Characters of a reconstructed key: from a part, or an underscore. -/
theorem mem_reconstructKey {c : Char} {parts : List (List Char)}
    (h : c ∈ reconstructKey parts) :
    c = '_' ∨ ∃ p ∈ parts, c ∈ p := by
  cases parts with
  | nil => simp [reconstructKey] at h
  | cons p rest =>
    simp only [reconstructKey, List.append_assoc, List.mem_append] at h
    rcases h with h | h
    · exact Or.inr ⟨p, List.mem_cons_self p rest, h⟩
    · rcases h with h | h
      · simp only [List.mem_cons, List.not_mem_nil, or_false] at h
        rcases h with h | h | h <;> exact Or.inl h
      · rcases mem_intercalate h with h | ⟨q, hq, hcq⟩
        · exact Or.inl h
        · exact Or.inr ⟨q, List.mem_cons_of_mem p hq, hcq⟩

/-- A successful table lookup means the key is one of the table's keys. -/
theorem findTreatment_mem {table : List (String × TreatmentInfo)}
    {key : String} {t : TreatmentInfo} (h : findTreatment table key = some t) :
    key ∈ table.map Prod.fst := by
  induction table with
  | nil => simp [findTreatment] at h
  | cons p rest ih =>
    obtain ⟨k, v⟩ := p
    simp only [findTreatment] at h
    by_cases hk : key = k
    · simp [hk]
    · rw [if_neg hk] at h
      exact List.mem_cons_of_mem _ (ih h)

/-- The spec's normalisation step emits no whitespace character. -/
theorem jsIsWs_eq_false_of_mem_specNormalizeKey (raw : String) :
    ∀ c ∈ (specNormalizeKey raw).data, jsIsWs c = false := by
  intro c hc
  unfold specNormalizeKey at hc
  cases h : jsSplitSpace (jsCollapseWs (jsTrim raw.data)) with
  | nil => exact absurd h (jsSplitSpace_ne_nil _)
  | cons p rest =>
    simp only [h] at hc
    cases rest with
    | nil =>
      rw [if_pos rfl] at hc
      obtain ⟨-, hnos⟩ := eq_of_jsSplitSpace_singleton h
      by_contra hws
      rw [Bool.not_eq_false] at hws
      have hsp := eq_space_of_mem_jsCollapseWsAux (b := false) hc hws
      exact hnos (hsp ▸ hc)
    | cons q t =>
      rw [if_neg (by simp)] at hc
      rw [show ({ data := reconstructKey (p :: q :: t) } : String).data =
        reconstructKey (p :: q :: t) from rfl] at hc
      rcases mem_reconstructKey hc with rfl | ⟨part, hpart, hcp⟩
      · rfl
      · by_contra hws
        rw [Bool.not_eq_false] at hws
        have hcn : c ∈ jsCollapseWs (jsTrim raw.data) :=
          mem_of_mem_jsSplitSpace (h ▸ hpart) hcp
        have hsp := eq_space_of_mem_jsCollapseWsAux (b := false) hcn hws
        exact not_space_mem_of_mem_jsSplitSpace (h ▸ hpart) (hsp ▸ hcp)

/-- The spec's normalisation step is the identity on whitespace-free
keys. -/
theorem specNormalizeKey_eq_self {k : String}
    (h : ∀ c ∈ k.data, jsIsWs c = false) : specNormalizeKey k = k := by
  have htrim : jsTrim k.data = k.data := jsTrim_eq_self h
  have hcol : jsCollapseWs (jsTrim k.data) = k.data := by
    rw [htrim]; exact jsCollapseWsAux_eq_self false h
  have hnos : ' ' ∉ k.data := fun hm => absurd (h ' ' hm) (by decide)
  unfold specNormalizeKey
  simp only [hcol, jsSplitSpace_of_not_mem _ hnos, if_true]

/-- The spec's normalisation step is idempotent. -/
theorem specNormalizeKey_idem (raw : String) :
    specNormalizeKey (specNormalizeKey raw) = specNormalizeKey raw :=
  specNormalizeKey_eq_self (jsIsWs_eq_false_of_mem_specNormalizeKey raw)

/-! ## Facts about the concrete reference table, checked by evaluation -/

/-- Every key of the reference table has at most two space-separated
tokens (36 keys have none, two have exactly one embedded space). -/
theorem table_keys_token_le_two :
    ∀ p ∈ diseaseTreatments, (jsSplitSpace (normalizedSpacesOf p.1)).length ≤ 2 := by
  decide

/-- No two keys of the reference table agree up to letter case. -/
theorem table_keys_lower_nodup :
    (diseaseTreatments.map (fun p => jsToLower p.1.data)).Nodup := by
  decide

/-- No key of the reference table normalises-and-lowercases to
`"apple apple scab"`. -/
theorem table_keys_not_apple_scab_phrase :
    ∀ p ∈ diseaseTreatments,
      String.mk (jsToLower (normalizedSpacesOf p.1)) ≠ "apple apple scab" := by
  decide

/-- The only table key that lowercases to `"apple___apple_scab"` is
`"Apple___Apple_scab"` itself. -/
theorem table_keys_lower_apple_unique :
    ∀ p ∈ diseaseTreatments,
      jsToLower p.1.data = "apple___apple_scab".data →
        p.1 = "Apple___Apple_scab" := by
  decide

/-- Removing a key removes it from the key enumeration. -/
theorem not_mem_keys_storeRemoveItem {α : Type} (k : String)
    (store : CacheStore α) :
    k ∉ CacheService.keys (storeRemoveItem k store) := by
  intro hm
  obtain ⟨p, hp, hpk⟩ := List.mem_map.mp hm
  rw [storeRemoveItem, List.mem_filter] at hp
  have h2 := hp.2
  simp only [decide_eq_true_eq] at h2
  exact h2 hpk

/-! ## The claims -/

/-- C5: `set(k, v, ttl)` followed immediately by `get(k)` returns `v`;
a `get(k)` once the ttl has elapsed returns null, lazily evicts the
entry, and a subsequent `keys()` enumeration no longer contains `k`. -/
theorem cache_set_get_roundtrip_and_expiry {α : Type} (store : CacheStore α)
    (now now' ttl : Nat) (k : String) (v : α) (h : now + ttl < now') :
    (CacheService.get now k (CacheService.set now k v ttl store)).1 = some v ∧
    (CacheService.get now' k (CacheService.set now k v ttl store)).1 = none ∧
    k ∉ CacheService.keys
        (CacheService.get now' k (CacheService.set now k v ttl store)).2 := by
  have hget : storeGetItem k (CacheService.set now k v ttl store) =
      some { data := v, timestamp := now, expires := now + ttl } := by
    simp [CacheService.set, storeSetItem, storeGetItem]
  refine ⟨?_, ?_, ?_⟩
  · simp only [CacheService.get, hget]
    rw [if_neg (by omega)]
  · simp only [CacheService.get, hget]
    rw [if_pos (by omega)]
  · simp only [CacheService.get, hget]
    rw [if_pos (by omega)]
    exact not_mem_keys_storeRemoveItem k _

/-- C5 witness: a concrete round trip with `ttl = 5` read back at times
`0` and `6`. -/
theorem cache_set_get_roundtrip_and_expiry_witness :
    (CacheService.get 0 "k" (CacheService.set 0 "k" 7 5 ([] : CacheStore Nat))).1 =
      some 7 ∧
    (CacheService.get 6 "k" (CacheService.set 0 "k" 7 5 ([] : CacheStore Nat))).1 =
      none ∧
    "k" ∉ CacheService.keys
      (CacheService.get 6 "k" (CacheService.set 0 "k" 7 5 ([] : CacheStore Nat))).2 :=
  cache_set_get_roundtrip_and_expiry [] 0 6 5 "k" 7 (by omega)

/-- C9: the `modelLoaded` flag becomes true only through a successful
load; a failed `loadDiseaseModel` leaves the state unchanged (so a later
call retries the fetch — no permanent lockout), and once loaded every
later call returns at once without fetching again. -/
theorem loadDiseaseModel_flag_invariant (fetchOk modelLoaded : Bool) :
    ((TFLiteService.loadDiseaseModel fetchOk modelLoaded).outcome.isOk = false →
      (TFLiteService.loadDiseaseModel fetchOk modelLoaded).modelLoaded = modelLoaded) ∧
    ((TFLiteService.loadDiseaseModel fetchOk modelLoaded).modelLoaded = true →
      modelLoaded = true ∨
        (TFLiteService.loadDiseaseModel fetchOk modelLoaded).outcome.isOk = true) ∧
    (modelLoaded = true →
      TFLiteService.loadDiseaseModel fetchOk modelLoaded =
        { modelLoaded := true, outcome := .ok (), fetched := false }) ∧
    (modelLoaded = false →
      (TFLiteService.loadDiseaseModel fetchOk modelLoaded).fetched = true) := by
  cases fetchOk <;> cases modelLoaded <;>
    simp [TFLiteService.loadDiseaseModel, Except.isOk, Except.toBool]

/-- C9 witness: a call in the already-loaded state returns success
without fetching. -/
theorem loadDiseaseModel_flag_invariant_witness :
    TFLiteService.loadDiseaseModel true true =
      { modelLoaded := true, outcome := .ok (), fetched := false } :=
  (loadDiseaseModel_flag_invariant true true).2.2.1 rfl

/-- C1 counterexample: with the model flag set and the backend healthy,
`detectDisease` still makes its single backend call and performs no local
inference, so the pipeline is not local-first. -/
theorem detectDisease_local_first_cex :
    TFLiteService.detectDisease true
        (.ok { predicted_disease := "Tomato___Late_blight", confidence := "0.9512" }) =
      .ok { result := { predicted_disease := "Tomato___Late_blight",
                        confidence := "0.9512" },
            remoteCalls := 1, localInferenceCalls := 0 } := rfl

/-- C1 (amended): every `detectDisease` call makes exactly one call to
the remote endpoint and no local-inference attempt, whatever the local
model state; a remote success is returned as is, and a remote failure is
replaced by the placeholder result of the same shape. -/
theorem detectDisease_remote_always (modelLoaded : Bool) (o : HttpOutcome) :
    TFLiteService.detectDisease modelLoaded o =
      .ok { result := match o with
              | .ok r => r
              | .fail _ => placeholderResponse
            remoteCalls := 1
            localInferenceCalls := 0 } := by
  cases o <;> rfl

/-- C4 counterexample: an HTTP 500 with body detail "model overloaded"
does not surface as an error from the pipeline's classification call —
`detectDisease` resolves with the fixed generic placeholder instead. -/
theorem pipeline_error_not_surfaced_cex :
    TFLiteService.detectDisease false
        (.fail (.response 500 (some "model overloaded") none)) =
      .ok { result := { predicted_disease :=
                          "Unable to detect - Please check connection",
                        confidence := "0.00" },
            remoteCalls := 1, localInferenceCalls := 0 } := rfl

/-- C4 (amended): `handleError` maps a non-2xx response to an `ApiError`
carrying the status code and the body's `detail` text, and
`AgricultureAPI.detectDisease` rejects with exactly that error; the
enclosing `TFLiteService.detectDisease`, however, catches it and resolves
with the placeholder result instead of failing. -/
theorem handleError_detail_surfaced (status : Nat) (detail : String)
    (message : Option String) (modelLoaded : Bool) (hd : detail ≠ "") :
    handleError (.response status (some detail) message) =
      { message := detail, status := some status } ∧
    AgricultureAPI.detectDisease (.fail (.response status (some detail) message)) =
      .error { message := detail, status := some status } ∧
    TFLiteService.detectDisease modelLoaded
        (.fail (.response status (some detail) message)) =
      .ok { result := placeholderResponse, remoteCalls := 1,
            localInferenceCalls := 0 } := by
  have h1 : handleError (.response status (some detail) message) =
      { message := detail, status := some status } := by
    simp [handleError, jsOrStr, hd]
  refine ⟨h1, ?_, ?_⟩
  · simp [AgricultureAPI.detectDisease, postFormData, h1]
  · rfl

/-- C4 witness: the spec's concrete scenario, HTTP 500 with detail
"model overloaded". -/
theorem handleError_detail_surfaced_witness :
    handleError (.response 500 (some "model overloaded") none) =
      { message := "model overloaded", status := some 500 } ∧
    AgricultureAPI.detectDisease
        (.fail (.response 500 (some "model overloaded") none)) =
      .error { message := "model overloaded", status := some 500 } ∧
    TFLiteService.detectDisease false
        (.fail (.response 500 (some "model overloaded") none)) =
      .ok { result := placeholderResponse, remoteCalls := 1,
            localInferenceCalls := 0 } :=
  handleError_detail_surfaced 500 "model overloaded" none false (by decide)

/-- C7: the top-level classification never rejects: for every backend
outcome the service resolves (on failure, with the typed placeholder
failure result), and the page handler ends with a result, no error
message, and the loading flag cleared. -/
theorem detectDisease_never_uncaught (modelLoaded : Bool) (o : HttpOutcome) :
    (TFLiteService.detectDisease modelLoaded o).isOk = true ∧
    ((∀ r, o ≠ .ok r) →
      TFLiteService.detectDisease modelLoaded o =
        .ok { result := placeholderResponse, remoteCalls := 1,
              localInferenceCalls := 0 }) ∧
    (DiseaseDetectionPage.detectDisease modelLoaded o).error = none ∧
    (DiseaseDetectionPage.detectDisease modelLoaded o).result.isSome = true ∧
    (DiseaseDetectionPage.detectDisease modelLoaded o).isLoading = false := by
  cases o with
  | ok r =>
    refine ⟨rfl, ?_, rfl, rfl, rfl⟩
    intro h
    exact absurd rfl (h r)
  | fail e =>
    exact ⟨rfl, fun _ => rfl, rfl, rfl, rfl⟩

/-- C7 witness: the no-response (network failure) outcome resolves to the
placeholder and an error-free page state. -/
theorem detectDisease_never_uncaught_witness :
    (TFLiteService.detectDisease false (.fail .request)).isOk = true ∧
    TFLiteService.detectDisease false (.fail .request) =
      .ok { result := placeholderResponse, remoteCalls := 1,
            localInferenceCalls := 0 } ∧
    (DiseaseDetectionPage.detectDisease false (.fail .request)).error = none := by
  obtain ⟨h1, h2, h3, -, -⟩ := detectDisease_never_uncaught false (.fail .request)
  exact ⟨h1, h2 (fun r h => by cases h), h3⟩

/-- `jsRound` is the floor of `x + 1/2`, stated through the `⌊·⌋`
notation so that concrete values can be computed by `norm_num`. -/
theorem jsRound_eq (q : ℚ) : jsRound q = ⌊q + 1 / 2⌋ := by
  rw [jsRound, Rat.floor_def', Rat.floor_def]

/-- C3 counterexample: `(19.076, 72.87)` and `(19.071, 72.87)` agree in
every digit up to and including the 2nd decimal place, yet `Math.round`
sends them to `19.08` and `19.07`, so the cache keys differ. -/
theorem generateLocationKey_digit_agreement_cex :
    ⌊(19.076 : ℚ) * 100⌋ = ⌊(19.071 : ℚ) * 100⌋ ∧
    generateLocationKey "weather" 19.076 72.87 none ≠
      generateLocationKey "weather" 19.071 72.87 none := by
  constructor
  · norm_num
  · have h1 : jsRound ((19.076 : ℚ) * 100) = 1908 := by rw [jsRound_eq]; norm_num
    have h2 : jsRound ((19.071 : ℚ) * 100) = 1907 := by rw [jsRound_eq]; norm_num
    have h3 : jsRound ((72.87 : ℚ) * 100) = 7287 := by rw [jsRound_eq]; norm_num
    simp only [generateLocationKey, h1, h2, h3]
    decide

/-- C3 (amended): two coordinate pairs whose latitudes and longitudes
round (half-up) to the same hundredth, with the same prefix string and
identical extra parameters, produce the same cache key.  Agreement of the
first two decimal digits alone is not enough (see the counterexample):
the key uses rounding, not truncation. -/
theorem generateLocationKey_same_rounding (tag : String) (lat1 lon1 lat2 lon2 : ℚ)
    (extra : Option String)
    (hlat : jsRound (lat1 * 100) = jsRound (lat2 * 100))
    (hlon : jsRound (lon1 * 100) = jsRound (lon2 * 100)) :
    generateLocationKey tag lat1 lon1 extra =
      generateLocationKey tag lat2 lon2 extra := by
  simp [generateLocationKey, hlat, hlon]

/-- C3 witness: the spec's own example pair `(19.070001, 72.870002)` and
`(19.074999, 72.874999)` share one key. -/
theorem generateLocationKey_same_rounding_witness :
    generateLocationKey "weather" 19.070001 72.870002 (some "u") =
      generateLocationKey "weather" 19.074999 72.874999 (some "u") := by
  have ha : jsRound ((19.070001 : ℚ) * 100) = 1907 := by rw [jsRound_eq]; norm_num
  have hb : jsRound ((19.074999 : ℚ) * 100) = 1907 := by rw [jsRound_eq]; norm_num
  have hc : jsRound ((72.870002 : ℚ) * 100) = 7287 := by rw [jsRound_eq]; norm_num
  have hd : jsRound ((72.874999 : ℚ) * 100) = 7287 := by rw [jsRound_eq]; norm_num
  exact generateLocationKey_same_rounding "weather" 19.070001 72.870002
    19.074999 72.874999 (some "u") (ha.trans hb.symm) (hc.trans hd.symm)

/-- C6: for every canvas raster (any source resolution resized by the
canvas to 224x224 byte-valued channels), the preprocessed tensor has
shape exactly (1, 224, 224, 3) and every value lies in [0, 1]. -/
theorem preprocessImage_shape_and_range (imageData : Nat → Nat → Nat → Nat)
    (hbyte : ∀ i j c, imageData i j c ≤ 255) :
    (preprocessImage imageData).shape = [1, 224, 224, 3] ∧
    ∀ idx, 0 ≤ (preprocessImage imageData).val idx ∧
      (preprocessImage imageData).val idx ≤ 1 := by
  constructor
  · rfl
  · intro idx
    simp only [preprocessImage, Tensor.expandDims0, Tensor.divScalar, Tensor.toFloat,
      Tensor.resizeNearestNeighbor, fromPixels]
    match idx with
    | [] => norm_num
    | _ :: [] => norm_num
    | _ :: _ :: [] => norm_num
    | _ :: _ :: _ :: [] => norm_num
    | _ :: i :: j :: ch :: [] =>
      refine ⟨by positivity, ?_⟩
      rw [div_le_one (by norm_num)]
      show ((imageData (i * 224 / 224) (j * 224 / 224) ch : ℚ)) ≤ 255
      exact_mod_cast le_trans (hbyte _ _ _) (le_refl 255)
    | _ :: _ :: _ :: _ :: _ :: _ => norm_num

/-- C6 witness: a constant mid-gray raster. -/
theorem preprocessImage_shape_and_range_witness :
    (preprocessImage (fun _ _ _ => 128)).shape = [1, 224, 224, 3] ∧
    0 ≤ (preprocessImage (fun _ _ _ => 128)).val [0, 5, 7, 2] ∧
    (preprocessImage (fun _ _ _ => 128)).val [0, 5, 7, 2] ≤ 1 := by
  obtain ⟨hs, hv⟩ := preprocessImage_shape_and_range (fun _ _ _ => 128)
    (fun _ _ _ => by norm_num)
  exact ⟨hs, (hv [0, 5, 7, 2]).1, (hv [0, 5, 7, 2]).2⟩

/-- C2 counterexample: `"Apple healthy"` reconstructs (by the spec's
formula) to the table key `"Apple___healthy"`, yet `getTreatmentInfo`
returns null because the code only reconstructs keys of at least three
tokens; and `"APPLE APPLE SCAB"` is found by neither the exact lookup nor
the reconstruction, yet does not return null (the hard-coded fallback
fires). -/
theorem getTreatmentInfo_reconstruction_cex :
    specNormalizeKey "Apple healthy" = "Apple___healthy" ∧
    (findTreatment diseaseTreatments "Apple___healthy").isSome = true ∧
    getTreatmentInfo "Apple healthy" = none ∧
    findTreatment diseaseTreatments "APPLE APPLE SCAB" = none ∧
    specNormalizeKey "APPLE APPLE SCAB" = "APPLE___APPLE_SCAB" ∧
    findTreatment diseaseTreatments "APPLE___APPLE_SCAB" = none ∧
    (getTreatmentInfo "APPLE APPLE SCAB").isSome = true := by
  decide

/-- C2 (amended): for raw keys of at least three space-separated tokens
whose reconstruction `first + "___" + rest.join("_")` is a table key,
`getTreatmentInfo` returns the canonical key's record; and a key found by
neither the exact lookup nor the reconstruction resolves to null provided
its cleaned-up form does not lowercase to `"apple apple scab"`. -/
theorem getTreatmentInfo_normalization (raw : String) (r : TreatmentInfo) :
    (3 ≤ (jsSplitSpace (normalizedSpacesOf raw)).length →
      findTreatment diseaseTreatments
          (String.mk (reconstructKey (jsSplitSpace (normalizedSpacesOf raw)))) =
        some r →
      getTreatmentInfo raw = some r) ∧
    (findTreatment diseaseTreatments raw = none →
      findTreatment diseaseTreatments
          (String.mk (reconstructKey (jsSplitSpace (normalizedSpacesOf raw)))) =
        none →
      String.mk (jsToLower (normalizedSpacesOf raw)) ≠ "apple apple scab" →
      getTreatmentInfo raw = none) := by
  constructor
  · intro h3 hrec
    have hexact : findTreatment diseaseTreatments raw = none := by
      cases hf : findTreatment diseaseTreatments raw with
      | none => rfl
      | some t =>
        exfalso
        obtain ⟨p, hp, hpe⟩ := List.mem_map.mp (findTreatment_mem hf)
        have htok := table_keys_token_le_two p hp
        rw [hpe] at htok
        omega
    simp only [getTreatmentInfo, hexact]
    rw [if_pos h3, hrec]
  · intro hexact hrec hlow
    simp only [getTreatmentInfo, hexact]
    by_cases h3 : 3 ≤ (jsSplitSpace (normalizedSpacesOf raw)).length
    · rw [if_pos h3, hrec]
      unfold appleScabFallback
      rw [if_neg hlow]
    · rw [if_neg h3]
      unfold appleScabFallback
      rw [if_neg hlow]

/-- C2 witness: `"Apple Apple scab"` resolves to the record of
`"Apple___Apple_scab"`. -/
theorem getTreatmentInfo_normalization_witness :
    getTreatmentInfo "Apple Apple scab" =
      findTreatment diseaseTreatments "Apple___Apple_scab" := by
  cases hr : findTreatment diseaseTreatments "Apple___Apple_scab" with
  | none => exact absurd hr (by decide)
  | some r =>
    refine (getTreatmentInfo_normalization "Apple Apple scab" r).1 (by decide) ?_
    rw [show String.mk (reconstructKey (jsSplitSpace
      (normalizedSpacesOf "Apple Apple scab"))) = "Apple___Apple_scab" by decide]
    exact hr

/-- A successful table lookup returns a pair stored in the table. -/
theorem findTreatment_mem_pair {table : List (String × TreatmentInfo)}
    {key : String} {t : TreatmentInfo} (h : findTreatment table key = some t) :
    (key, t) ∈ table := by
  induction table with
  | nil => simp [findTreatment] at h
  | cons p rest ih =>
    obtain ⟨k, v⟩ := p
    simp only [findTreatment] at h
    by_cases hk : key = k
    · rw [if_pos hk] at h
      obtain rfl := Option.some.inj h
      exact hk ▸ List.mem_cons_self _ _
    · rw [if_neg hk] at h
      exact List.mem_cons_of_mem _ (ih h)

/-- C8 counterexample: the canonical key
`"Corn_(maize)___Cercospora_leaf_spot Gray_leaf_spot"` (which contains a
space) resolves to its record, but its normalized form resolves to null,
so resolving an already-canonical key does not always agree with
resolving its normalized form. -/
theorem resolve_idempotent_cex :
    (getTreatmentInfo "Corn_(maize)___Cercospora_leaf_spot Gray_leaf_spot").isSome =
      true ∧
    specNormalizeKey "Corn_(maize)___Cercospora_leaf_spot Gray_leaf_spot" =
      "Corn_(maize)___Cercospora_leaf_spot___Gray_leaf_spot" ∧
    getTreatmentInfo "Corn_(maize)___Cercospora_leaf_spot___Gray_leaf_spot" =
      none := by
  decide

/-- C8 (amended): for the canonical keys that contain no whitespace (36
of the 38), resolving the key and resolving its normalized form agree
(normalisation leaves such keys unchanged); and the
normalize-then-resolve process is idempotent: applying it twice returns
the same result as applying it once. -/
theorem resolve_idempotent_amended :
    (∀ key r, (key, r) ∈ diseaseTreatments →
      (∀ c ∈ key.data, jsIsWs c = false) →
      getTreatmentInfo (specNormalizeKey key) = getTreatmentInfo key) ∧
    (∀ raw, getTreatmentInfo (specNormalizeKey (specNormalizeKey raw)) =
      getTreatmentInfo (specNormalizeKey raw)) := by
  constructor
  · intro key r _ hker
    rw [specNormalizeKey_eq_self hker]
  · intro raw
    rw [specNormalizeKey_idem]

/-- C8 witness: the canonical key `"Apple___Apple_scab"`, and
double-normalisation of the raw key `"Raspberry healthy"`. -/
theorem resolve_idempotent_amended_witness :
    getTreatmentInfo (specNormalizeKey "Apple___Apple_scab") =
      getTreatmentInfo "Apple___Apple_scab" ∧
    getTreatmentInfo (specNormalizeKey (specNormalizeKey "Raspberry healthy")) =
      getTreatmentInfo (specNormalizeKey "Raspberry healthy") := by
  constructor
  · cases hr : findTreatment diseaseTreatments "Apple___Apple_scab" with
    | none => exact absurd hr (by decide)
    | some r =>
      exact resolve_idempotent_amended.1 "Apple___Apple_scab" r
        (findTreatment_mem_pair hr) (by decide)
  · exact resolve_idempotent_amended.2 "Raspberry healthy"

/-- Cleaning a key commutes with lowercasing. -/
theorem lowered_normalizedSpaces_eq {raw key : String}
    (hcase : jsToLower raw.data = jsToLower key.data) :
    jsToLower (normalizedSpacesOf raw) = jsToLower (normalizedSpacesOf key) := by
  unfold normalizedSpacesOf
  rw [jsToLower_jsCollapseWs, jsToLower_jsTrim, hcase, ← jsToLower_jsTrim,
    ← jsToLower_jsCollapseWs]

/-- Lowercasing does not change the number of split fields. -/
theorem jsSplitSpace_length_lower (l : List Char) :
    (jsSplitSpace (jsToLower l)).length = (jsSplitSpace l).length := by
  rw [show jsToLower l = l.map Char.toLower from rfl, jsSplitSpace_map_toLower,
    List.length_map]

/-- C10: label resolution is case-sensitive — a raw key that differs from
a reference-table key only in letter case resolves to null — with the
single hard-coded exception: any input whose cleaned-up form lowercases
exactly to `"apple apple scab"` resolves to the `"Apple___Apple_scab"`
record. -/
theorem getTreatmentInfo_case_sensitive :
    (∀ raw key, key ∈ diseaseTreatments.map Prod.fst → raw ≠ key →
      jsToLower raw.data = jsToLower key.data →
      getTreatmentInfo raw = none) ∧
    (∀ raw, String.mk (jsToLower (normalizedSpacesOf raw)) = "apple apple scab" →
      getTreatmentInfo raw = findTreatment diseaseTreatments "Apple___Apple_scab") := by
  constructor
  · intro raw key hkey hne hcase
    obtain ⟨p, hp, hpe⟩ := List.mem_map.mp hkey
    have hlow := lowered_normalizedSpaces_eq hcase
    have hlen : (jsSplitSpace (normalizedSpacesOf raw)).length =
        (jsSplitSpace (normalizedSpacesOf key)).length := by
      rw [← jsSplitSpace_length_lower (normalizedSpacesOf raw), hlow,
        jsSplitSpace_length_lower]
    have htok : (jsSplitSpace (normalizedSpacesOf key)).length ≤ 2 := by
      have := table_keys_token_le_two p hp
      rwa [hpe] at this
    have hexact : findTreatment diseaseTreatments raw = none := by
      cases hf : findTreatment diseaseTreatments raw with
      | none => rfl
      | some t =>
        exfalso
        obtain ⟨q, hq, hqe⟩ := List.mem_map.mp (findTreatment_mem hf)
        have hinj := List.inj_on_of_nodup_map table_keys_lower_nodup
        have hqp : q = p := hinj hq hp (by rw [hqe, hpe]; exact hcase)
        exact hne (by rw [← hqe, hqp, hpe])
    have hlowne : String.mk (jsToLower (normalizedSpacesOf raw)) ≠
        "apple apple scab" := by
      rw [hlow]
      have := table_keys_not_apple_scab_phrase p hp
      rwa [hpe] at this
    simp only [getTreatmentInfo, hexact]
    rw [if_neg (by omega)]
    unfold appleScabFallback
    rw [if_neg hlowne]
  · intro raw hlowstr
    have hlowl : jsToLower (normalizedSpacesOf raw) = "apple apple scab".data :=
      congrArg String.data hlowstr
    have hsplit : (jsSplitSpace (normalizedSpacesOf raw)).map (List.map Char.toLower) =
        jsSplitSpace ("apple apple scab".data) := by
      rw [← jsSplitSpace_map_toLower]
      rw [show (normalizedSpacesOf raw).map Char.toLower =
        jsToLower (normalizedSpacesOf raw) from rfl, hlowl]
    have hlen : (jsSplitSpace (normalizedSpacesOf raw)).length = 3 := by
      have h := congrArg List.length hsplit
      rw [List.length_map] at h
      rw [h]
      decide
    have hexact : findTreatment diseaseTreatments raw = none := by
      cases hf : findTreatment diseaseTreatments raw with
      | none => rfl
      | some t =>
        exfalso
        obtain ⟨q, hq, hqe⟩ := List.mem_map.mp (findTreatment_mem hf)
        have := table_keys_not_apple_scab_phrase q hq
        rw [hqe] at this
        exact this hlowstr
    have hrecl : jsToLower (reconstructKey (jsSplitSpace (normalizedSpacesOf raw))) =
        "apple___apple_scab".data := by
      show (reconstructKey _).map Char.toLower = _
      rw [map_toLower_reconstructKey, hsplit]
      decide
    simp only [getTreatmentInfo, hexact]
    rw [if_pos (by omega)]
    cases hr : findTreatment diseaseTreatments
        (String.mk (reconstructKey (jsSplitSpace (normalizedSpacesOf raw)))) with
    | some t =>
      obtain ⟨q, hq, hqe⟩ := List.mem_map.mp (findTreatment_mem hr)
      have hq1 : q.1 = "Apple___Apple_scab" :=
        table_keys_lower_apple_unique q hq (by rw [hqe]; exact hrecl)
      rw [hqe] at hq1
      rw [hq1] at hr
      rw [hr]
    | none =>
      unfold appleScabFallback
      rw [if_pos hlowstr]

/-- C10 witness: the all-lowercase variant of a table key resolves to
null, and `"Apple apple Scab"` (which the two-stage normalisation does
not find) resolves to the apple-scab record through the fallback. -/
theorem getTreatmentInfo_case_sensitive_witness :
    getTreatmentInfo "apple___apple_scab" = none ∧
    getTreatmentInfo "Apple apple Scab" =
      findTreatment diseaseTreatments "Apple___Apple_scab" := by
  constructor
  · exact getTreatmentInfo_case_sensitive.1 "apple___apple_scab"
      "Apple___Apple_scab" (by decide) (by decide) (by decide)
  · exact getTreatmentInfo_case_sensitive.2 "Apple apple Scab" (by decide)
